import Mathlib

/-!
Verification of the `grant_program` Solana program
(`programs/grant_program/src/lib.rs`).

The Rust source is shallowly embedded below:

* byte strings are `List Nat` (each entry a byte value);
* the SHA-256 based `hashv` primitive of the Solana SDK is abstracted as an
  explicit function parameter `hashv : HashFn` — the program only ever uses it
  as a black box, so every theorem is stated for an arbitrary hash function
  and evaluated on a concrete stand-in in the witnesses;
* Rust `u64`/`i64`/`usize` arithmetic is `Nat`/`Int` with explicit
  wrap-around / checked-overflow modelling where the source uses it;
* fallible Rust code (`Result<_, ErrorCode>`) becomes `Except ErrorCode _`;
  a failing Anchor instruction rolls the whole transaction back, which the
  embedding models by keeping the pre-state whenever `Except.error` is hit.
-/

set_option maxHeartbeats 1000000
set_option maxRecDepth 16384

namespace GrantProgram

/-- Byte strings (`&[u8]`, `Vec<u8>`, `[u8; N]`, `Pubkey`) are lists of
naturals; a well-formed byte has value `< 256`. -/
abbrev Bytes := List Nat

/-- Predicate: every entry of the byte string is an actual byte. -/
def isBytes (bs : Bytes) : Prop := ∀ b ∈ bs, b < 256

instance (bs : Bytes) : Decidable (isBytes bs) := by
  unfold isBytes; infer_instance

/-- Abstraction of `anchor_lang::solana_program::hash::hashv` (SHA-256 over
the concatenation of the given byte slices).  The program uses it only as a
black box, so the development is parametric in it. -/
abbrev HashFn := List Bytes → Bytes

/-- The all-zero 32-byte array `[0u8; 32]`. -/
def zeros32 : Bytes := List.replicate 32 0

/-- The all-one 32-byte array, used as a concrete non-zero hash in tests. -/
def ones32 : Bytes := List.replicate 32 1

/-- `usize::MAX + 1` on the 64-bit Solana target. -/
def USIZE_LIMIT : Nat := 2 ^ 64

/-- `usize::checked_add`. -/
def usize_checked_add (a b : Nat) : Option Nat :=
  if a + b < USIZE_LIMIT then some (a + b) else none

/-- Smallest `i64` value. -/
def i64Min : Int := -(2 ^ 63)

/-- Largest `i64` value. -/
def i64Max : Int := 2 ^ 63 - 1

/-- `i64::checked_sub`: fails exactly when the mathematical difference leaves
the `i64` range. -/
def checked_sub_i64 (a b : Int) : Option Int :=
  if i64Min ≤ a - b ∧ a - b ≤ i64Max then some (a - b) else none

/-- Little-endian decoding of a byte string into a natural number
(`u16::from_le_bytes` / `u64::from_le_bytes`). -/
def leDecode : Bytes → Nat
  | [] => 0
  | b :: bs => b + 256 * leDecode bs

/-- Little-endian encoding of a natural into `w` bytes. -/
def natToLeBytes : Nat → Nat → Bytes
  | 0, _ => []
  | w + 1, n => n % 256 :: natToLeBytes w (n / 256)

/-- `u64::to_le_bytes` (the value is reduced mod `2^64` as in the machine). -/
def u64ToLeBytes (n : Nat) : Bytes := natToLeBytes 8 (n % 2 ^ 64)

/-- `u16::to_le_bytes`. -/
def u16ToLeBytes (n : Nat) : Bytes := natToLeBytes 2 (n % 2 ^ 16)

/-- `i64::from_le_bytes`: two's-complement interpretation of 8 bytes. -/
def i64FromLeBytes (bs : Bytes) : Int :=
  let u := leDecode bs
  if u < 2 ^ 63 then (u : Int) else (u : Int) - 2 ^ 64

/-- `i64::to_le_bytes`: two's-complement little-endian encoding. -/
def i64ToLeBytes (x : Int) : Bytes := natToLeBytes 8 (x % (2 ^ 64 : Int)).toNat

/-- The Rust cast `as u64` applied to an `i64` value (two's-complement wrap). -/
def intAsU64 (x : Int) : Nat := (x % (2 ^ 64 : Int)).toNat

/-- The slice `data[o .. o + l]`. -/
def sliceRange (d : Bytes) (o l : Nat) : Bytes := (d.drop o).take l

/-- Lexicographic `<=` of Rust byte arrays (`[u8; 32]: Ord`). -/
def bytesLe : Bytes → Bytes → Bool
  | [], _ => true
  | _ :: _, [] => false
  | a :: as, b :: bs => if a < b then true else if b < a then false else bytesLe as bs

/-- The `ErrorCode` enum of the program (only program-level errors; the
storage-layer duplicate-receipt failure is modelled separately). -/
inductive ErrorCode
  | Unauthorized
  | InsufficientFunds
  | InvalidAmount
  | InvalidPeriod
  | InvalidStartTs
  | InvalidPeriodIndex
  | MintMismatch
  | Paused
  | GrantExpired
  | GrantNotStarted
  | MathOverflow
  | AllowlistRequired
  | AllowlistNotEnabled
  | NotInAllowlist
  | InvalidPopConfigAuthority
  | MissingPopSignatureInstruction
  | InvalidPopSignatureProgram
  | InvalidPopSignatureData
  | InvalidPopSigner
  | InvalidPopMessageVersion
  | InvalidPopMessageLength
  | PopProofGrantMismatch
  | PopProofClaimerMismatch
  | PopProofPeriodMismatch
  | PopProofExpired
  | PopEntryHashMismatch
  | PopHashChainBroken
  | PopStreamChainBroken
  | PopGenesisMismatch
  | PopStateGrantMismatch
  | PopAuditHashMissing
deriving DecidableEq

/-- The `require!(cond, err)` macro: succeed iff `cond` holds. -/
def require {ε : Type} (c : Prop) [Decidable c] (e : ε) : Except ε Unit :=
  if c then .ok () else .error e

/-- `Option::ok_or`. -/
def ok_or {ε α : Type} (x : Option α) (e : ε) : Except ε α :=
  match x with
  | some a => .ok a
  | none => .error e

instance exceptDecEq {ε α : Type} [DecidableEq ε] [DecidableEq α] :
    DecidableEq (Except ε α) := fun a b =>
  match a, b with
  | .ok x, .ok y =>
      if h : x = y then isTrue (congrArg Except.ok h)
      else isFalse fun hc => h (Except.ok.inj hc)
  | .ok _, .error _ => isFalse fun hc => Except.noConfusion hc
  | .error _, .ok _ => isFalse fun hc => Except.noConfusion hc
  | .error e, .error f =>
      if h : e = f then isTrue (congrArg Except.error h)
      else isFalse fun hc => h (Except.error.inj hc)

-- ===== Program constants (lib.rs lines 28-34) =====

def DEFAULT_MONTH_SECONDS : Int := 2592000

def POP_HASH_LEN : Nat := 32

def POP_MESSAGE_VERSION_V1 : Nat := 1

def POP_MESSAGE_VERSION_V2 : Nat := 2

def POP_MESSAGE_LEN_V1 : Nat := 1 + 32 + 32 + 8 + 32 + 32 + 32 + 8

def POP_MESSAGE_LEN_V2 : Nat := 1 + 32 + 32 + 8 + 32 + 32 + 32 + 32 + 8

def POP_MAX_SKEW_SECONDS : Int := 600

/-- ASCII bytes of the domain tag string `we-ne:pop:v1`. -/
def POP_TAG_V1 : Bytes := [119, 101, 45, 110, 101, 58, 112, 111, 112, 58, 118, 49]

/-- ASCII bytes of the domain tag string `we-ne:pop:v2`. -/
def POP_TAG_V2 : Bytes := [119, 101, 45, 110, 101, 58, 112, 111, 112, 58, 118, 50]

/-- ASCII bytes of the domain tag string `we-ne:allowlist`. -/
def ALLOWLIST_TAG : Bytes := [119, 101, 45, 110, 101, 58, 97, 108, 108, 111, 119, 108, 105, 115, 116]

/-- Stands for the fixed native ed25519 signature-verification program id
(`ed25519_program::id()`); the program only compares instruction program ids
against it for equality, so any fixed distinguished 32-byte value is a
faithful model. -/
def ed25519_program_id : Bytes := (List.range 32).map (fun i => i + 64)

-- ===== State structs (lib.rs lines 494-559) =====

/-- The `Grant` account. -/
structure Grant where
  authority : Bytes
  mint : Bytes
  vault : Bytes
  grant_id : Nat
  amount_per_period : Nat
  period_seconds : Int
  start_ts : Int
  expires_at : Int
  merkle_root : Bytes
  paused : Bool
  bump : Nat
deriving DecidableEq

/-- The `ClaimReceipt` account. -/
structure ClaimReceipt where
  grant : Bytes
  claimer : Bytes
  period_index : Nat
  claimed_at : Int
deriving DecidableEq

/-- The `PopState` account. -/
structure PopState where
  grant : Bytes
  last_global_hash : Bytes
  last_stream_hash : Bytes
  last_period_index : Nat
  last_issued_at : Int
  initialized : Bool
  bump : Nat
deriving DecidableEq

/-- The decoded `PopProofMessage` (lib.rs lines 626-637). -/
structure PopProofMessage where
  version : Nat
  grant : Bytes
  claimer : Bytes
  period_index : Nat
  prev_hash : Bytes
  stream_prev_hash : Bytes
  audit_hash : Bytes
  entry_hash : Bytes
  issued_at : Int
deriving DecidableEq

/-- A transaction instruction as far as this program inspects it:
its target program id and its raw data. -/
structure Instruction where
  program_id : Bytes
  data : Bytes
deriving DecidableEq

-- ===== Byte readers (lib.rs lines 866-916) =====

/-- `read_u16_le` (lib.rs 866-870). -/
def read_u16_le (data : Bytes) (offset : Nat) : Except ErrorCode Nat := do
  let e ← ok_or (usize_checked_add offset 2) ErrorCode.MathOverflow
  let _ ← require (e ≤ data.length) ErrorCode.InvalidPopSignatureData
  pure (leDecode (sliceRange data offset 2))

/-- `read_pubkey` (lib.rs 872-882); returns the value and the advanced offset. -/
def read_pubkey (data : Bytes) (offset : Nat) : Except ErrorCode (Bytes × Nat) := do
  let e ← ok_or (usize_checked_add offset 32) ErrorCode.MathOverflow
  let _ ← require (e ≤ data.length) ErrorCode.InvalidPopMessageLength
  pure (sliceRange data offset 32, e)

/-- `read_hash` (lib.rs 884-892). -/
def read_hash (data : Bytes) (offset : Nat) : Except ErrorCode (Bytes × Nat) := do
  let e ← ok_or (usize_checked_add offset 32) ErrorCode.MathOverflow
  let _ ← require (e ≤ data.length) ErrorCode.InvalidPopMessageLength
  pure (sliceRange data offset 32, e)

/-- `read_u64_le` (lib.rs 894-904). -/
def read_u64_le (data : Bytes) (offset : Nat) : Except ErrorCode (Nat × Nat) := do
  let e ← ok_or (usize_checked_add offset 8) ErrorCode.MathOverflow
  let _ ← require (e ≤ data.length) ErrorCode.InvalidPopMessageLength
  pure (leDecode (sliceRange data offset 8), e)

/-- `read_i64_le` (lib.rs 906-916). -/
def read_i64_le (data : Bytes) (offset : Nat) : Except ErrorCode (Int × Nat) := do
  let e ← ok_or (usize_checked_add offset 8) ErrorCode.MathOverflow
  let _ ← require (e ≤ data.length) ErrorCode.InvalidPopMessageLength
  pure (i64FromLeBytes (sliceRange data offset 8), e)

-- ===== Message codec (lib.rs lines 776-818) =====

/-- `parse_pop_message` (lib.rs 776-818). -/
def parse_pop_message (message : Bytes) : Except ErrorCode PopProofMessage := do
  let _ ← require (message.isEmpty = false) ErrorCode.InvalidPopMessageLength
  let version := message.getD 0 0
  let _ ← require (version = POP_MESSAGE_VERSION_V1 ∨ version = POP_MESSAGE_VERSION_V2)
    ErrorCode.InvalidPopMessageVersion
  let expected_len :=
    if version = POP_MESSAGE_VERSION_V2 then POP_MESSAGE_LEN_V2 else POP_MESSAGE_LEN_V1
  let _ ← require (message.length = expected_len) ErrorCode.InvalidPopMessageLength
  let (grant, o1) ← read_pubkey message 1
  let (claimer, o2) ← read_pubkey message o1
  let (period_index, o3) ← read_u64_le message o2
  let (prev_hash, o4) ← read_hash message o3
  let (stream_prev_hash, o5) ← read_hash message o4
  let (audit_hash, o6) ←
    if version = POP_MESSAGE_VERSION_V2 then read_hash message o5
    else pure (zeros32, o5)
  let (entry_hash, o7) ← read_hash message o6
  let (issued_at, _o8) ← read_i64_le message o7
  pure ({ version := version
          grant := grant
          claimer := claimer
          period_index := period_index
          prev_hash := prev_hash
          stream_prev_hash := stream_prev_hash
          audit_hash := audit_hash
          entry_hash := entry_hash
          issued_at := issued_at })

-- ===== Entry hash (lib.rs lines 820-856) =====

/-- `pop_entry_hash` (lib.rs 820-856). -/
def pop_entry_hash (hashv : HashFn) (version : Nat)
    (prev_hash stream_prev_hash audit_hash grant claimer : Bytes)
    (period_index : Nat) (issued_at : Int) : Except ErrorCode Bytes :=
  let period_bytes := u64ToLeBytes period_index
  let issued_at_bytes := i64ToLeBytes issued_at
  if version = POP_MESSAGE_VERSION_V1 then
    .ok (hashv [POP_TAG_V1, prev_hash, stream_prev_hash, grant, claimer,
                period_bytes, issued_at_bytes])
  else if version = POP_MESSAGE_VERSION_V2 then
    .ok (hashv [POP_TAG_V2, prev_hash, stream_prev_hash, audit_hash, grant, claimer,
                period_bytes, issued_at_bytes])
  else .error ErrorCode.InvalidPopMessageVersion

/-- `absolute_i64_diff` (lib.rs 858-864). -/
def absolute_i64_diff (a b : Int) : Except ErrorCode Int :=
  if b ≤ a then ok_or (checked_sub_i64 a b) ErrorCode.MathOverflow
  else ok_or (checked_sub_i64 b a) ErrorCode.MathOverflow

-- ===== Ed25519 companion instruction (lib.rs lines 729-774) =====

/-- `extract_ed25519_signer_and_message` (lib.rs 729-774). -/
def extract_ed25519_signer_and_message (ix : Instruction) :
    Except ErrorCode (Bytes × Bytes) := do
  let data := ix.data
  let _ ← require (16 ≤ data.length) ErrorCode.InvalidPopSignatureData
  let _ ← require (data.getD 0 0 = 1) ErrorCode.InvalidPopSignatureData
  let signature_offset ← read_u16_le data 2
  let signature_instruction_index ← read_u16_le data 4
  let public_key_offset ← read_u16_le data 6
  let public_key_instruction_index ← read_u16_le data 8
  let message_data_offset ← read_u16_le data 10
  let message_data_size ← read_u16_le data 12
  let message_instruction_index ← read_u16_le data 14
  let _ ← require (signature_instruction_index = 65535 ∧
                   public_key_instruction_index = 65535 ∧
                   message_instruction_index = 65535)
    ErrorCode.InvalidPopSignatureData
  let signature_end ← ok_or (usize_checked_add signature_offset 64) ErrorCode.MathOverflow
  let public_key_end ← ok_or (usize_checked_add public_key_offset 32) ErrorCode.MathOverflow
  let message_end ← ok_or (usize_checked_add message_data_offset message_data_size)
    ErrorCode.MathOverflow
  let _ ← require (signature_end ≤ data.length ∧ public_key_end ≤ data.length ∧
                   message_end ≤ data.length)
    ErrorCode.InvalidPopSignatureData
  pure (sliceRange data public_key_offset 32,
        sliceRange data message_data_offset message_data_size)

-- ===== Claim environment =====

/-- The inputs of `verify_and_record_pop_proof` other than the mutable
`pop_state`: the relevant `ClaimGrant` accounts and the transaction context
(instruction list plus the index of the currently executing instruction,
as read from the instructions sysvar). -/
structure ClaimEnv where
  grantKey : Bytes
  grant : Grant
  claimerKey : Bytes
  popConfigSigner : Bytes
  instructions : List Instruction
  currentIndex : Nat
  popStateBump : Nat

/-- Companion-instruction loading, first part of `verify_and_record_pop_proof`
(lib.rs 645-655): the current instruction must not be first, the preceding
instruction must load, and it must target the native ed25519 program. -/
def load_pop_companion (env : ClaimEnv) : Except ErrorCode Instruction := do
  let _ ← require (0 < env.currentIndex) ErrorCode.MissingPopSignatureInstruction
  match env.instructions.get? (env.currentIndex - 1) with
  | none => throw ErrorCode.MissingPopSignatureInstruction
  | some ed25519_ix => do
      let _ ← require (ed25519_ix.program_id = ed25519_program_id)
        ErrorCode.InvalidPopSignatureProgram
      pure ed25519_ix

/-- Companion extraction, signer check and message decoding, second part of
`verify_and_record_pop_proof` (lib.rs 657-663). -/
def pop_message_of_env (env : ClaimEnv) : Except ErrorCode PopProofMessage := do
  let ed25519_ix ← load_pop_companion env
  let (signer_pubkey, message_bytes) ← extract_ed25519_signer_and_message ed25519_ix
  let _ ← require (signer_pubkey = env.popConfigSigner) ErrorCode.InvalidPopSigner
  parse_pop_message message_bytes

/-- The binding, audit, entry-hash and skew checks of
`verify_and_record_pop_proof` (lib.rs 664-697), in source order. -/
def pop_message_checks (hashv : HashFn) (env : ClaimEnv) (message : PopProofMessage)
    (period_index : Nat) (now : Int) : Except ErrorCode Unit := do
  let _ ← require (message.grant = env.grantKey) ErrorCode.PopProofGrantMismatch
  let _ ← require (message.claimer = env.claimerKey) ErrorCode.PopProofClaimerMismatch
  let _ ← require (message.period_index = period_index) ErrorCode.PopProofPeriodMismatch
  let _ ←
    if message.version = POP_MESSAGE_VERSION_V2 then
      require (message.audit_hash ≠ zeros32) ErrorCode.PopAuditHashMissing
    else pure ()
  let expected_entry_hash ← pop_entry_hash hashv message.version message.prev_hash
    message.stream_prev_hash message.audit_hash message.grant message.claimer
    message.period_index message.issued_at
  let _ ← require (expected_entry_hash = message.entry_hash) ErrorCode.PopEntryHashMismatch
  let skew ← absolute_i64_diff now message.issued_at
  require (skew ≤ POP_MAX_SKEW_SECONDS) ErrorCode.PopProofExpired

/-- The hash-chain continuity check and state advance of
`verify_and_record_pop_proof` (lib.rs 699-726); returns the new `pop_state`. -/
def pop_state_advance (env : ClaimEnv) (pop_state : PopState)
    (message : PopProofMessage) : Except ErrorCode PopState := do
  let st ←
    if pop_state.initialized then do
      let _ ← require (pop_state.grant = env.grantKey) ErrorCode.PopStateGrantMismatch
      let _ ← require (pop_state.last_global_hash = message.prev_hash)
        ErrorCode.PopHashChainBroken
      let _ ← require (pop_state.last_stream_hash = message.stream_prev_hash)
        ErrorCode.PopStreamChainBroken
      pure pop_state
    else do
      let _ ← require (message.prev_hash = zeros32) ErrorCode.PopGenesisMismatch
      let _ ← require (message.stream_prev_hash = zeros32) ErrorCode.PopGenesisMismatch
      pure ({ pop_state with
              grant := env.grantKey
              bump := env.popStateBump
              initialized := true })
  pure ({ st with
          last_global_hash := message.entry_hash
          last_stream_hash := message.entry_hash
          last_period_index := message.period_index
          last_issued_at := message.issued_at })

/-- `verify_and_record_pop_proof` (lib.rs 639-727): the three stages above in
source order; returns the updated `pop_state` (on error the enclosing
transaction aborts, so the recorded state keeps its old value). -/
def verify_and_record_pop_proof (hashv : HashFn) (env : ClaimEnv)
    (pop_state : PopState) (period_index : Nat) (now : Int) :
    Except ErrorCode PopState := do
  let message ← pop_message_of_env env
  let _ ← pop_message_checks hashv env message period_index now
  pop_state_advance env pop_state message

/-- The recorded pop state after an execution of
`verify_and_record_pop_proof`: the new state on success, the unchanged old
state on rejection (transaction rollback). -/
def pop_state_after (hashv : HashFn) (env : ClaimEnv) (pop_state : PopState)
    (period_index : Nat) (now : Int) : PopState :=
  match verify_and_record_pop_proof hashv env pop_state period_index now with
  | .ok s => s
  | .error _ => pop_state

-- ===== Claim timing (lib.rs lines 563-579) =====

/-- `require_claim_timing` (lib.rs 563-579). -/
def require_claim_timing (grant : Grant) (now : Int) (period_index : Nat) :
    Except ErrorCode Unit := do
  let _ ←
    if grant.expires_at ≠ 0 then require (now ≤ grant.expires_at) ErrorCode.GrantExpired
    else pure ()
  let _ ← require (grant.start_ts ≤ now) ErrorCode.GrantNotStarted
  let elapsed ← ok_or (checked_sub_i64 now grant.start_ts) ErrorCode.MathOverflow
  let expected_period_index := intAsU64 (Int.tdiv elapsed grant.period_seconds)
  require (period_index = expected_period_index) ErrorCode.InvalidPeriodIndex

-- ===== Allowlist (lib.rs lines 918-942) =====

/-- `allowlist_leaf` (lib.rs 922-926). -/
def allowlist_leaf (hashv : HashFn) (claimer : Bytes) : Bytes :=
  hashv [ALLOWLIST_TAG, claimer]

/-- One sorted-pair hashing step of `verify_merkle_sorted` (lib.rs 937-939). -/
def merkle_step (hashv : HashFn) (computed p : Bytes) : Bytes :=
  let lr := if bytesLe computed p then (computed, p) else (p, computed)
  hashv [lr.1, lr.2]

/-- `verify_merkle_sorted` (lib.rs 932-942). -/
def verify_merkle_sorted (hashv : HashFn) (root leaf : Bytes)
    (proof : List Bytes) : Bool :=
  decide (proof.foldl (merkle_step hashv) leaf = root)

-- ===== Token transfer and receipt (lib.rs lines 581-624) =====

/-- The two token balances the claim path touches. -/
structure TokenState where
  vault_amount : Nat
  claimer_amount : Nat
deriving DecidableEq

/-- `transfer_from_vault` (lib.rs 581-611): requires sufficient vault balance,
then the checked SPL transfer moves `amount` from the vault to the claimer. -/
def transfer_from_vault (tokens : TokenState) (amount : Nat) :
    Except ErrorCode TokenState :=
  if amount ≤ tokens.vault_amount then
    .ok { vault_amount := tokens.vault_amount - amount
          claimer_amount := tokens.claimer_amount + amount }
  else .error ErrorCode.InsufficientFunds

/-- `record_receipt` (lib.rs 613-624). -/
def record_receipt (grant claimer : Bytes) (period_index : Nat) (claimed_at : Int) :
    ClaimReceipt :=
  { grant := grant, claimer := claimer, period_index := period_index
    claimed_at := claimed_at }

-- ===== Claim orchestration (lib.rs lines 102-136 and the ClaimGrant accounts) =====

/-- Program-level error or the storage-layer uniqueness failure: the
`receipt` account of `ClaimGrant` is declared `init` with seeds
`(b"receipt", grant, claimer, period_index)`, so account resolution fails
when a receipt for that triple already exists; the spec names this failure
`AlreadyClaimed`. -/
inductive ClaimErr
  | program (e : ErrorCode)
  | AlreadyClaimed
deriving DecidableEq

/-- Lift a program error into `ClaimErr`. -/
def liftProgram {α : Type} : Except ErrorCode α → Except ClaimErr α
  | .ok a => .ok a
  | .error e => .error (ClaimErr.program e)

/-- The per-grant chain state a claim transaction reads and writes:
the set of existing claim receipts, the rolling `PopState`, and the
vault/claimer token balances. -/
structure ChainState where
  receipts : List ClaimReceipt
  pop_state : PopState
  tokens : TokenState
deriving DecidableEq

/-- The unique-address key of a receipt record: the seed triple
`(grant, claimer, period_index)`. -/
def receiptKey (r : ClaimReceipt) : Bytes × Bytes × Nat :=
  (r.grant, r.claimer, r.period_index)

/-- The receipt keys currently present in a state. -/
def receiptKeys (s : ChainState) : List (Bytes × Bytes × Nat) :=
  s.receipts.map receiptKey

/-- Whether a receipt for the given `(grant, claimer, period)` triple exists. -/
def receipt_exists (s : ChainState) (g c : Bytes) (p : Nat) : Bool :=
  s.receipts.any (fun r => decide (receiptKey r = (g, c, p)))

/-- The `claim_grant` instruction (lib.rs 102-136) as a transition on
`ChainState`.  Anchor resolves the `ClaimGrant` accounts before the body
runs; the `init` of the `receipt` account fails there when a receipt with
the same `(grant, claimer, period_index)` seeds already exists
(`AlreadyClaimed`).  Then the body: paused check, allowlist-disabled check,
`verify_and_record_pop_proof`, `require_claim_timing`, `transfer_from_vault`
and `record_receipt`, in source order. -/
def claim_grant_step (hashv : HashFn) (env : ClaimEnv) (s : ChainState)
    (period_index : Nat) (now : Int) : Except ClaimErr ChainState := do
  let _ ← require (receipt_exists s env.grantKey env.claimerKey period_index = false)
    ClaimErr.AlreadyClaimed
  let _ ← require (env.grant.paused = false) (ClaimErr.program ErrorCode.Paused)
  let _ ← require (env.grant.merkle_root = zeros32)
    (ClaimErr.program ErrorCode.AllowlistRequired)
  let pop' ← liftProgram
    (verify_and_record_pop_proof hashv env s.pop_state period_index now)
  let _ ← liftProgram (require_claim_timing env.grant now period_index)
  let tokens' ← liftProgram (transfer_from_vault s.tokens env.grant.amount_per_period)
  let receipt := record_receipt env.grantKey env.claimerKey period_index now
  pure ({ receipts := receipt :: s.receipts, pop_state := pop', tokens := tokens' })

/-- The chain state after a `claim_grant` transaction: the new state on
success, the unchanged old state when the transaction aborts. -/
def claim_grant_run (hashv : HashFn) (env : ClaimEnv) (s : ChainState)
    (period_index : Nat) (now : Int) : ChainState :=
  match claim_grant_step hashv env s period_index now with
  | .ok s' => s'
  | .error _ => s

/-- The message a 177-byte version-1 buffer decodes to. -/
def parsedV1 (bs : Bytes) : PopProofMessage :=
  { version := 1, grant := sliceRange bs 1 32, claimer := sliceRange bs 33 32
    period_index := leDecode (sliceRange bs 65 8), prev_hash := sliceRange bs 73 32
    stream_prev_hash := sliceRange bs 105 32, audit_hash := zeros32
    entry_hash := sliceRange bs 137 32, issued_at := i64FromLeBytes (sliceRange bs 169 8) }

/-- The message a 209-byte version-2 buffer decodes to. -/
def parsedV2 (bs : Bytes) : PopProofMessage :=
  { version := 2, grant := sliceRange bs 1 32, claimer := sliceRange bs 33 32
    period_index := leDecode (sliceRange bs 65 8), prev_hash := sliceRange bs 73 32
    stream_prev_hash := sliceRange bs 105 32, audit_hash := sliceRange bs 137 32
    entry_hash := sliceRange bs 169 32, issued_at := i64FromLeBytes (sliceRange bs 201 8) }

-- ===== Spec-side definitions (for refinement comparisons) =====

/-- The domain tag the spec prescribes per message version
("we-ne:pop:v1" for version 1, "we-ne:pop:v2" for version 2). -/
def pop_domain_tag_spec (version : Nat) : Bytes :=
  if version = POP_MESSAGE_VERSION_V2 then POP_TAG_V2 else POP_TAG_V1

/-- The hash preimage sequence the spec prescribes for the entry hash:
domain tag, previous global hash, previous stream hash, the audit hash for
version 2 only, grant id, recipient id, little-endian period index,
little-endian issuance timestamp, in that order. -/
def pop_entry_hash_input_spec (version : Nat)
    (prev_global_hash prev_stream_hash audit_hash grant recipient : Bytes)
    (period_index : Nat) (issued_at : Int) : List Bytes :=
  [pop_domain_tag_spec version, prev_global_hash, prev_stream_hash] ++
  (if version = POP_MESSAGE_VERSION_V2 then [audit_hash] else []) ++
  [grant, recipient, u64ToLeBytes period_index, i64ToLeBytes issued_at]

/-- The sorted-pair hashing step as the spec words it: hash the
lexicographically smaller operand first. -/
def sorted_pair_hash_spec (hashv : HashFn) (a b : Bytes) : Bytes :=
  if bytesLe a b then hashv [a, b] else hashv [b, a]

-- ===== Concrete test vectors =====

/-- A degenerate concrete hash-function instantiation (constant all-zero
digest) used to evaluate the parametric theorems on explicit inputs. -/
def constHash : HashFn := fun _ => zeros32

/-- Concrete grant account key used in the test vectors. -/
def gk : Bytes := List.replicate 32 7

/-- Concrete claimer key used in the test vectors. -/
def ck : Bytes := List.replicate 32 9

/-- Concrete trusted PoP signer key used in the test vectors. -/
def sk : Bytes := List.replicate 32 5

/-- Serialize a version-1 proof-of-process message (the off-chain writer's
counterpart of `parse_pop_message`, used to build test vectors). -/
def mkPopMessageV1 (grant claimer : Bytes) (p : Nat) (prev stream entry : Bytes)
    (t : Int) : Bytes :=
  [POP_MESSAGE_VERSION_V1] ++ grant ++ claimer ++ u64ToLeBytes p ++ prev ++ stream ++
  entry ++ i64ToLeBytes t

/-- Serialize an ed25519 signature-verification instruction data buffer with
one component and all fields inline: 16-byte header, 64-byte signature at
offset 16, 32-byte public key at offset 80, message at offset 112. -/
def mkEd25519Data (sig pk msgBytes : Bytes) : Bytes :=
  [1, 0] ++ u16ToLeBytes 16 ++ u16ToLeBytes 65535 ++ u16ToLeBytes 80 ++
  u16ToLeBytes 65535 ++ u16ToLeBytes 112 ++ u16ToLeBytes msgBytes.length ++
  u16ToLeBytes 65535 ++ sig ++ pk ++ msgBytes

/-- Concrete grant: 100 tokens per 30-day period starting at time 1000,
no expiry, allowlist disabled, not paused. -/
def grant0 : Grant :=
  { authority := List.replicate 32 3, mint := List.replicate 32 4
    vault := List.replicate 32 6, grant_id := 1, amount_per_period := 100
    period_seconds := 2592000, start_ts := 1000, expires_at := 0
    merkle_root := zeros32, paused := false, bump := 0 }

/-- Concrete genesis version-1 message: period 0, zero previous hashes,
entry hash equal to the digest of `constHash`, issued at time 1000. -/
def msgA : Bytes := mkPopMessageV1 gk ck 0 zeros32 zeros32 zeros32 1000

/-- The decoded form of `msgA`. -/
def msgAParsed : PopProofMessage :=
  { version := 1, grant := gk, claimer := ck, period_index := 0
    prev_hash := zeros32, stream_prev_hash := zeros32, audit_hash := zeros32
    entry_hash := zeros32, issued_at := 1000 }

/-- Concrete claim environment: the ed25519 companion instruction carrying
`msgA` signed by the trusted signer sits at index 0, the claim itself at 1. -/
def envA : ClaimEnv :=
  { grantKey := gk, grant := grant0, claimerKey := ck, popConfigSigner := sk
    instructions := [{ program_id := ed25519_program_id
                       data := mkEd25519Data (List.replicate 64 0) sk msgA }]
    currentIndex := 1, popStateBump := 0 }

/-- The uninitialized pop state a fresh claim starts from. -/
def popState0 : PopState :=
  { grant := zeros32, last_global_hash := zeros32, last_stream_hash := zeros32
    last_period_index := 0, last_issued_at := 0, initialized := false, bump := 0 }

/-- The pop state recorded after `envA`'s claim is accepted. -/
def popStateAfterA : PopState :=
  { grant := gk, last_global_hash := zeros32, last_stream_hash := zeros32
    last_period_index := 0, last_issued_at := 1000, initialized := true, bump := 0 }

/-- A version-1 message whose `entry_hash` field does not match the
recomputed hash (all-one instead of the digest of `constHash`). -/
def msgBad : Bytes := mkPopMessageV1 gk ck 0 zeros32 zeros32 ones32 1000

/-- The decoded form of `msgBad`. -/
def msgBadParsed : PopProofMessage :=
  { version := 1, grant := gk, claimer := ck, period_index := 0
    prev_hash := zeros32, stream_prev_hash := zeros32, audit_hash := zeros32
    entry_hash := ones32, issued_at := 1000 }

/-- `envA` with the companion instruction carrying `msgBad`. -/
def envBad : ClaimEnv :=
  { envA with
    instructions := [{ program_id := ed25519_program_id
                       data := mkEd25519Data (List.replicate 64 0) sk msgBad }] }

/-- An initialized pop state whose recorded global hash does not match
`msgA`'s zero previous hash. -/
def stBad : PopState :=
  { grant := gk, last_global_hash := ones32, last_stream_hash := zeros32
    last_period_index := 0, last_issued_at := 0, initialized := true, bump := 0 }

/-- A version-1 message for period 3 chained on the all-zero hashes. -/
def msgC9 : Bytes := mkPopMessageV1 gk ck 3 zeros32 zeros32 zeros32 1000

/-- `envA` with the companion instruction carrying `msgC9`. -/
def envC9 : ClaimEnv :=
  { envA with
    instructions := [{ program_id := ed25519_program_id
                       data := mkEd25519Data (List.replicate 64 0) sk msgC9 }] }

/-- An initialized pop state whose recorded last period index is 5. -/
def stC9 : PopState :=
  { grant := gk, last_global_hash := zeros32, last_stream_hash := zeros32
    last_period_index := 5, last_issued_at := 900, initialized := true, bump := 0 }

/-- The pop state after `stC9` accepts the period-3 message `msgC9`. -/
def stC9after : PopState :=
  { grant := gk, last_global_hash := zeros32, last_stream_hash := zeros32
    last_period_index := 3, last_issued_at := 1000, initialized := true, bump := 0 }

/-- Fresh ledger: no receipts, uninitialized pop state, 1000 tokens funded. -/
def chainState0 : ChainState :=
  { receipts := [], pop_state := popState0
    tokens := { vault_amount := 1000, claimer_amount := 0 } }

/-- The ledger after `envA`'s period-0 claim is accepted at time 1000. -/
def chainState1 : ChainState :=
  { receipts := [{ grant := gk, claimer := ck, period_index := 0, claimed_at := 1000 }]
    pop_state := popStateAfterA
    tokens := { vault_amount := 900, claimer_amount := 100 } }

/-- `envA` with the claim instruction first in the transaction. -/
def envIdx0 : ClaimEnv := { envA with currentIndex := 0 }

/-- `envA` with an empty transaction instruction list. -/
def envNoPrev : ClaimEnv := { envA with instructions := [] }

/-- A preceding instruction that does not target the ed25519 program. -/
def ixWrong : Instruction := { program_id := zeros32, data := [] }

/-- `envA` with the preceding instruction targeting the wrong program. -/
def envWrongProg : ClaimEnv := { envA with instructions := [ixWrong] }

/-- An ed25519 instruction whose declared component count is 0, not 1. -/
def ixBadCount : Instruction :=
  { program_id := ed25519_program_id, data := List.replicate 16 0 }

/-- An ed25519 instruction whose signature-instruction-index field is 0
rather than the inline sentinel 0xFFFF. -/
def ixBadSentinel : Instruction :=
  { program_id := ed25519_program_id
    data := [1, 0, 0, 0, 0, 0, 0, 0, 0, 0, 0, 0, 0, 0, 0, 0] }

/-- An ed25519 instruction whose declared signature offset (300) plus the
signature length 64 exceeds the 16-byte data buffer. -/
def ixBadBounds : Instruction :=
  { program_id := ed25519_program_id
    data := [1, 0, 44, 1, 255, 255, 0, 0, 255, 255, 0, 0, 0, 0, 255, 255] }

/-- A 113-byte version-1 buffer (the length the claim asserts for v1). -/
def badLen113 : Bytes := 1 :: List.replicate 112 0

-- ===== Basic reduction lemmas =====

theorem ok_bind {ε α β : Type} (a : α) (f : α → Except ε β) :
    (Except.ok a >>= f) = f a := rfl

theorem error_bind {ε α β : Type} (e : ε) (f : α → Except ε β) :
    ((Except.error e : Except ε α) >>= f) = .error e := rfl

theorem pure_eq_ok {ε α : Type} (a : α) : (pure a : Except ε α) = .ok a := rfl

theorem require_bind {ε β : Type} (c : Prop) [Decidable c] (e : ε)
    (k : Unit → Except ε β) :
    (require c e >>= k) = if c then k () else .error e := by
  by_cases h : c <;> simp [require, h, ok_bind, error_bind]

theorem require_pos {ε : Type} {c : Prop} [Decidable c] (h : c) (e : ε) :
    require c e = .ok () := by
  simp [require, h]

theorem require_neg {ε : Type} {c : Prop} [Decidable c] (h : ¬c) (e : ε) :
    require c e = .error e := by
  simp [require, h]

theorem require_ok_iff {ε : Type} {c : Prop} [Decidable c] {e : ε} :
    require c e = .ok () ↔ c := by
  by_cases h : c <;> simp [require, h]

theorem ite_bind {ε α β : Type} (c : Prop) [Decidable c] (x y : Except ε α)
    (k : α → Except ε β) :
    ((if c then x else y) >>= k) = if c then x >>= k else y >>= k := by
  by_cases h : c <;> simp [h]

theorem ok_or_some {ε α : Type} (a : α) (e : ε) : ok_or (some a) e = .ok a := rfl

theorem ok_or_none {ε α : Type} (e : ε) : ok_or (none : Option α) e = .error e := rfl

theorem usize_checked_add_eq {a b : Nat} (h : a + b < USIZE_LIMIT) :
    usize_checked_add a b = some (a + b) := by
  simp [usize_checked_add, h]

-- ===== Reader lemmas =====

theorem read_u16_le_eq (d : Bytes) (o : Nat) (h1 : o + 2 < USIZE_LIMIT)
    (h2 : o + 2 ≤ d.length) :
    read_u16_le d o = .ok (leDecode (sliceRange d o 2)) := by
  simp [read_u16_le, usize_checked_add_eq h1, ok_or_some, ok_bind,
        require_pos h2, pure_eq_ok]

theorem read_pubkey_eq (d : Bytes) (o : Nat) (h1 : o + 32 < USIZE_LIMIT)
    (h2 : o + 32 ≤ d.length) :
    read_pubkey d o = .ok (sliceRange d o 32, o + 32) := by
  simp [read_pubkey, usize_checked_add_eq h1, ok_or_some, ok_bind,
        require_pos h2, pure_eq_ok]

theorem read_hash_eq (d : Bytes) (o : Nat) (h1 : o + 32 < USIZE_LIMIT)
    (h2 : o + 32 ≤ d.length) :
    read_hash d o = .ok (sliceRange d o 32, o + 32) := by
  simp [read_hash, usize_checked_add_eq h1, ok_or_some, ok_bind,
        require_pos h2, pure_eq_ok]

theorem read_u64_le_eq (d : Bytes) (o : Nat) (h1 : o + 8 < USIZE_LIMIT)
    (h2 : o + 8 ≤ d.length) :
    read_u64_le d o = .ok (leDecode (sliceRange d o 8), o + 8) := by
  simp [read_u64_le, usize_checked_add_eq h1, ok_or_some, ok_bind,
        require_pos h2, pure_eq_ok]

theorem read_i64_le_eq (d : Bytes) (o : Nat) (h1 : o + 8 < USIZE_LIMIT)
    (h2 : o + 8 ≤ d.length) :
    read_i64_le d o = .ok (i64FromLeBytes (sliceRange d o 8), o + 8) := by
  simp [read_i64_le, usize_checked_add_eq h1, ok_or_some, ok_bind,
        require_pos h2, pure_eq_ok]

-- ===== Parse characterization =====

theorem parse_err_empty : parse_pop_message [] = .error .InvalidPopMessageLength := rfl

theorem parse_err_version (bs : Bytes) (hne : bs.isEmpty = false)
    (hv : ¬(bs.getD 0 0 = POP_MESSAGE_VERSION_V1 ∨ bs.getD 0 0 = POP_MESSAGE_VERSION_V2)) :
    parse_pop_message bs = .error .InvalidPopMessageVersion := by
  simp only [parse_pop_message, require_bind]
  rw [if_pos hne, if_neg hv]

theorem parse_err_len (bs : Bytes) (hne : bs.isEmpty = false)
    (hv : bs.getD 0 0 = POP_MESSAGE_VERSION_V1 ∨ bs.getD 0 0 = POP_MESSAGE_VERSION_V2)
    (hlen : bs.length ≠
      (if bs.getD 0 0 = POP_MESSAGE_VERSION_V2 then POP_MESSAGE_LEN_V2 else POP_MESSAGE_LEN_V1)) :
    parse_pop_message bs = .error .InvalidPopMessageLength := by
  simp only [parse_pop_message, require_bind]
  rw [if_pos hne, if_pos hv, if_neg hlen]

theorem parse_ok_v1 (bs : Bytes) (hv : bs.getD 0 0 = POP_MESSAGE_VERSION_V1)
    (hlen : bs.length = POP_MESSAGE_LEN_V1) :
    parse_pop_message bs = .ok (parsedV1 bs) := by
  have hne : bs.isEmpty = false := by
    cases bs with
    | nil => simp [POP_MESSAGE_LEN_V1] at hlen
    | cons a l => rfl
  simp only [parse_pop_message, require_bind]
  rw [if_pos hne, hv]
  simp [POP_MESSAGE_VERSION_V1, POP_MESSAGE_VERSION_V2, POP_MESSAGE_LEN_V1,
        POP_MESSAGE_LEN_V2, hlen, ok_bind, pure_eq_ok, parsedV1,
        read_pubkey_eq bs 1 (by decide) (by rw [hlen]; decide),
        read_pubkey_eq bs 33 (by decide) (by rw [hlen]; decide),
        read_u64_le_eq bs 65 (by decide) (by rw [hlen]; decide),
        read_hash_eq bs 73 (by decide) (by rw [hlen]; decide),
        read_hash_eq bs 105 (by decide) (by rw [hlen]; decide),
        read_hash_eq bs 137 (by decide) (by rw [hlen]; decide),
        read_i64_le_eq bs 169 (by decide) (by rw [hlen]; decide)]

theorem parse_ok_v2 (bs : Bytes) (hv : bs.getD 0 0 = POP_MESSAGE_VERSION_V2)
    (hlen : bs.length = POP_MESSAGE_LEN_V2) :
    parse_pop_message bs = .ok (parsedV2 bs) := by
  have hne : bs.isEmpty = false := by
    cases bs with
    | nil => simp [POP_MESSAGE_LEN_V2] at hlen
    | cons a l => rfl
  simp only [parse_pop_message, require_bind]
  rw [if_pos hne, hv]
  simp [POP_MESSAGE_VERSION_V1, POP_MESSAGE_VERSION_V2, POP_MESSAGE_LEN_V1,
        POP_MESSAGE_LEN_V2, hlen, ok_bind, pure_eq_ok, parsedV2,
        read_pubkey_eq bs 1 (by decide) (by rw [hlen]; decide),
        read_pubkey_eq bs 33 (by decide) (by rw [hlen]; decide),
        read_u64_le_eq bs 65 (by decide) (by rw [hlen]; decide),
        read_hash_eq bs 73 (by decide) (by rw [hlen]; decide),
        read_hash_eq bs 105 (by decide) (by rw [hlen]; decide),
        read_hash_eq bs 137 (by decide) (by rw [hlen]; decide),
        read_hash_eq bs 169 (by decide) (by rw [hlen]; decide),
        read_i64_le_eq bs 201 (by decide) (by rw [hlen]; decide)]

theorem parse_ok_shape (bs : Bytes) (m : PopProofMessage)
    (h : parse_pop_message bs = .ok m) :
    bs.isEmpty = false ∧
    ((bs.getD 0 0 = POP_MESSAGE_VERSION_V1 ∧ bs.length = POP_MESSAGE_LEN_V1) ∨
     (bs.getD 0 0 = POP_MESSAGE_VERSION_V2 ∧ bs.length = POP_MESSAGE_LEN_V2)) := by
  by_cases hne : bs.isEmpty = false
  · refine ⟨hne, ?_⟩
    by_cases hv : bs.getD 0 0 = POP_MESSAGE_VERSION_V1 ∨ bs.getD 0 0 = POP_MESSAGE_VERSION_V2
    · by_cases hlen : bs.length =
        (if bs.getD 0 0 = POP_MESSAGE_VERSION_V2 then POP_MESSAGE_LEN_V2 else POP_MESSAGE_LEN_V1)
      · rcases hv with hv | hv
        · left
          refine ⟨hv, ?_⟩
          rw [hv] at hlen
          simpa [POP_MESSAGE_VERSION_V1, POP_MESSAGE_VERSION_V2, POP_MESSAGE_LEN_V1,
                 POP_MESSAGE_LEN_V2] using hlen
        · right
          refine ⟨hv, ?_⟩
          rw [hv] at hlen
          simpa [POP_MESSAGE_VERSION_V1, POP_MESSAGE_VERSION_V2, POP_MESSAGE_LEN_V1,
                 POP_MESSAGE_LEN_V2] using hlen
      · rw [parse_err_len bs hne hv hlen] at h
        exact absurd h (by simp)
    · rw [parse_err_version bs hne hv] at h
      exact absurd h (by simp)
  · have : bs.isEmpty = true := by
      cases hb : bs.isEmpty
      · exact absurd hb hne
      · rfl
    have hnil : bs = [] := by
      cases bs
      · rfl
      · simp at this
    rw [hnil, parse_err_empty] at h
    exact absurd h (by simp)

/-- Every parse outcome is `ok` or one of the two typed parse errors. -/
theorem parse_classify (bs : Bytes) :
    (∃ m, parse_pop_message bs = .ok m) ∨
    parse_pop_message bs = .error .InvalidPopMessageLength ∨
    parse_pop_message bs = .error .InvalidPopMessageVersion := by
  by_cases hne : bs.isEmpty = false
  · by_cases hv : bs.getD 0 0 = POP_MESSAGE_VERSION_V1 ∨ bs.getD 0 0 = POP_MESSAGE_VERSION_V2
    · by_cases hlen : bs.length =
        (if bs.getD 0 0 = POP_MESSAGE_VERSION_V2 then POP_MESSAGE_LEN_V2 else POP_MESSAGE_LEN_V1)
      · rcases hv with hv | hv
        · left
          refine ⟨parsedV1 bs, parse_ok_v1 bs hv ?_⟩
          rw [hv] at hlen
          simpa [POP_MESSAGE_VERSION_V1, POP_MESSAGE_VERSION_V2, POP_MESSAGE_LEN_V1,
                 POP_MESSAGE_LEN_V2] using hlen
        · left
          refine ⟨parsedV2 bs, parse_ok_v2 bs hv ?_⟩
          rw [hv] at hlen
          simpa [POP_MESSAGE_VERSION_V1, POP_MESSAGE_VERSION_V2, POP_MESSAGE_LEN_V1,
                 POP_MESSAGE_LEN_V2] using hlen
      · right; left; exact parse_err_len bs hne hv hlen
    · right; right; exact parse_err_version bs hne hv
  · have hnil : bs = [] := by
      cases bs
      · rfl
      · simp at hne
    right; left
    rw [hnil]; exact parse_err_empty

-- ===== Extractor characterization =====

theorem leDecode_lt (bs : Bytes) (h : isBytes bs) : leDecode bs < 256 ^ bs.length := by
  induction bs with
  | nil => simp [leDecode]
  | cons a l ih =>
    have ha : a < 256 := h a (List.mem_cons_self a l)
    have hl : isBytes l := fun b hb => h b (List.mem_cons_of_mem a hb)
    have hd := ih hl
    have h1 : a + 256 * leDecode l < 256 * (leDecode l + 1) := by omega
    have h2 : 256 * (leDecode l + 1) ≤ 256 * 256 ^ l.length :=
      Nat.mul_le_mul_left _ (Nat.succ_le_of_lt hd)
    calc a + 256 * leDecode l < 256 * (leDecode l + 1) := h1
      _ ≤ 256 * 256 ^ l.length := h2
      _ = 256 ^ (l.length + 1) := by ring
      _ = 256 ^ (a :: l).length := by simp

theorem sliceRange_isBytes (d : Bytes) (o l : Nat) (h : isBytes d) :
    isBytes (sliceRange d o l) := by
  intro b hb
  exact h b (List.drop_subset o d (List.take_subset l (d.drop o) hb))

theorem leDecode_slice2_lt (d : Bytes) (o : Nat) (h : isBytes d) :
    leDecode (sliceRange d o 2) < 65536 := by
  have hb := sliceRange_isBytes d o 2 h
  have hlen : (sliceRange d o 2).length ≤ 2 := by
    simp [sliceRange]
  have := leDecode_lt (sliceRange d o 2) hb
  calc leDecode (sliceRange d o 2) < 256 ^ (sliceRange d o 2).length := this
    _ ≤ 256 ^ 2 := Nat.pow_le_pow_right (by omega) hlen
    _ = 65536 := by norm_num

/-- Normal form of `extract_ed25519_signer_and_message` once the length and
component-count guards hold. -/
theorem extract_eq (ix : Instruction) (h16 : 16 ≤ ix.data.length)
    (h0 : ix.data.getD 0 0 = 1) :
    extract_ed25519_signer_and_message ix =
      (let data := ix.data
       let so := leDecode (sliceRange data 2 2)
       let sii := leDecode (sliceRange data 4 2)
       let po := leDecode (sliceRange data 6 2)
       let pii := leDecode (sliceRange data 8 2)
       let mo := leDecode (sliceRange data 10 2)
       let ms := leDecode (sliceRange data 12 2)
       let mii := leDecode (sliceRange data 14 2)
       if sii = 65535 ∧ pii = 65535 ∧ mii = 65535 then
         ok_or (usize_checked_add so 64) ErrorCode.MathOverflow >>= fun se =>
         ok_or (usize_checked_add po 32) ErrorCode.MathOverflow >>= fun pe =>
         ok_or (usize_checked_add mo ms) ErrorCode.MathOverflow >>= fun me =>
         if se ≤ data.length ∧ pe ≤ data.length ∧ me ≤ data.length then
           .ok (sliceRange data po 32, sliceRange data mo ms)
         else .error ErrorCode.InvalidPopSignatureData
       else .error ErrorCode.InvalidPopSignatureData) := by
  simp only [extract_ed25519_signer_and_message, require_bind]
  rw [if_pos h16, if_pos h0]
  rw [read_u16_le_eq ix.data 2 (by decide) (by omega),
      read_u16_le_eq ix.data 4 (by decide) (by omega),
      read_u16_le_eq ix.data 6 (by decide) (by omega),
      read_u16_le_eq ix.data 8 (by decide) (by omega),
      read_u16_le_eq ix.data 10 (by decide) (by omega),
      read_u16_le_eq ix.data 12 (by decide) (by omega),
      read_u16_le_eq ix.data 14 (by decide) (by omega)]
  simp only [ok_bind, pure_eq_ok]

/-- Every extractor outcome is `ok`, the typed signature-data error, or the
typed overflow error. -/
theorem extract_classify (ix : Instruction) :
    (∃ r, extract_ed25519_signer_and_message ix = .ok r) ∨
    extract_ed25519_signer_and_message ix = .error .InvalidPopSignatureData ∨
    extract_ed25519_signer_and_message ix = .error .MathOverflow := by
  by_cases h16 : 16 ≤ ix.data.length
  swap
  · right; left
    simp only [extract_ed25519_signer_and_message, require_bind]
    rw [if_neg h16]
  by_cases h0 : ix.data.getD 0 0 = 1
  swap
  · right; left
    simp only [extract_ed25519_signer_and_message, require_bind]
    rw [if_pos h16, if_neg h0]
  rw [extract_eq ix h16 h0]
  simp only []
  by_cases hs : leDecode (sliceRange ix.data 4 2) = 65535 ∧
      leDecode (sliceRange ix.data 8 2) = 65535 ∧
      leDecode (sliceRange ix.data 14 2) = 65535
  swap
  · right; left; rw [if_neg hs]
  rw [if_pos hs]
  cases h1 : usize_checked_add (leDecode (sliceRange ix.data 2 2)) 64 with
  | none => right; right; rw [ok_or_none, error_bind]
  | some se =>
    rw [ok_or_some, ok_bind]
    cases h2 : usize_checked_add (leDecode (sliceRange ix.data 6 2)) 32 with
    | none => right; right; rw [ok_or_none, error_bind]
    | some pe =>
      rw [ok_or_some, ok_bind]
      cases h3 : usize_checked_add (leDecode (sliceRange ix.data 10 2))
          (leDecode (sliceRange ix.data 12 2)) with
      | none => right; right; rw [ok_or_none, error_bind]
      | some me =>
        rw [ok_or_some, ok_bind]
        by_cases hb : se ≤ ix.data.length ∧ pe ≤ ix.data.length ∧ me ≤ ix.data.length
        · left
          exact ⟨_, by rw [if_pos hb]⟩
        · right; left; rw [if_neg hb]

-- ===== Verify-layer lemmas =====

theorem verify_eq (hashv : HashFn) (env : ClaimEnv) (st : PopState) (p : Nat) (now : Int) :
    verify_and_record_pop_proof hashv env st p now =
      (pop_message_of_env env >>= fun message =>
       pop_message_checks hashv env message p now >>= fun _ =>
       pop_state_advance env st message) := rfl

theorem verify_ok_inv (hashv : HashFn) (env : ClaimEnv) (st : PopState) (p : Nat)
    (now : Int) (msg : PopProofMessage) (s' : PopState)
    (hmsg : pop_message_of_env env = .ok msg)
    (hv : verify_and_record_pop_proof hashv env st p now = .ok s') :
    pop_message_checks hashv env msg p now = .ok () ∧
    pop_state_advance env st msg = .ok s' := by
  rw [verify_eq, hmsg, ok_bind] at hv
  cases hc : pop_message_checks hashv env msg p now with
  | error e => rw [hc, error_bind] at hv; exact absurd hv (by simp)
  | ok u =>
    cases u
    rw [hc, ok_bind] at hv
    exact ⟨rfl, hv⟩

theorem verify_of_msg (hashv : HashFn) (env : ClaimEnv) (st : PopState) (p : Nat)
    (now : Int) (msg : PopProofMessage)
    (hmsg : pop_message_of_env env = .ok msg) :
    verify_and_record_pop_proof hashv env st p now =
      (pop_message_checks hashv env msg p now >>= fun _ =>
       pop_state_advance env st msg) := by
  rw [verify_eq, hmsg, ok_bind]

/-- Inversion for the tail of the message checks: entry-hash equality and the
bounded skew. -/
theorem checks_tail_inv (hashv : HashFn) (now : Int) (m : PopProofMessage)
    (h : (pop_entry_hash hashv m.version m.prev_hash m.stream_prev_hash m.audit_hash
            m.grant m.claimer m.period_index m.issued_at >>= fun expected_entry_hash =>
          if expected_entry_hash = m.entry_hash then
            absolute_i64_diff now m.issued_at >>= fun skew =>
            require (skew ≤ POP_MAX_SKEW_SECONDS) ErrorCode.PopProofExpired
          else .error ErrorCode.PopEntryHashMismatch) = .ok ()) :
    pop_entry_hash hashv m.version m.prev_hash m.stream_prev_hash m.audit_hash
      m.grant m.claimer m.period_index m.issued_at = .ok m.entry_hash ∧
    ∃ d, absolute_i64_diff now m.issued_at = .ok d ∧ d ≤ POP_MAX_SKEW_SECONDS := by
  cases hE : pop_entry_hash hashv m.version m.prev_hash m.stream_prev_hash m.audit_hash
      m.grant m.claimer m.period_index m.issued_at with
  | error e => rw [hE, error_bind] at h; exact absurd h (by simp)
  | ok expected =>
    rw [hE, ok_bind] at h
    by_cases hee : expected = m.entry_hash
    swap
    · rw [if_neg hee] at h; exact absurd h (by simp)
    rw [if_pos hee] at h
    cases hD : absolute_i64_diff now m.issued_at with
    | error e => rw [hD, error_bind] at h; exact absurd h (by simp)
    | ok d =>
      rw [hD, ok_bind] at h
      refine ⟨by rw [hee], d, rfl, require_ok_iff.mp h⟩

theorem pop_message_checks_ok_inv (hashv : HashFn) (env : ClaimEnv)
    (m : PopProofMessage) (p : Nat) (now : Int)
    (h : pop_message_checks hashv env m p now = .ok ()) :
    m.grant = env.grantKey ∧ m.claimer = env.claimerKey ∧ m.period_index = p ∧
    (m.version = POP_MESSAGE_VERSION_V2 → m.audit_hash ≠ zeros32) ∧
    pop_entry_hash hashv m.version m.prev_hash m.stream_prev_hash m.audit_hash
      m.grant m.claimer m.period_index m.issued_at = .ok m.entry_hash ∧
    ∃ d, absolute_i64_diff now m.issued_at = .ok d ∧ d ≤ POP_MAX_SKEW_SECONDS := by
  simp only [pop_message_checks, require_bind, ite_bind, pure_eq_ok, ok_bind] at h
  by_cases h1 : m.grant = env.grantKey
  swap
  · rw [if_neg h1] at h; exact absurd h (by simp)
  rw [if_pos h1] at h
  by_cases h2 : m.claimer = env.claimerKey
  swap
  · rw [if_neg h2] at h; exact absurd h (by simp)
  rw [if_pos h2] at h
  by_cases h3 : m.period_index = p
  swap
  · rw [if_neg h3] at h; exact absurd h (by simp)
  rw [if_pos h3] at h
  by_cases hv2 : m.version = POP_MESSAGE_VERSION_V2
  · rw [if_pos hv2] at h
    by_cases hz : m.audit_hash ≠ zeros32
    · rw [if_pos hz] at h
      obtain ⟨hE, hd⟩ := checks_tail_inv hashv now m h
      exact ⟨h1, h2, h3, fun _ => hz, hE, hd⟩
    · rw [if_neg hz] at h; exact absurd h (by simp)
  · rw [if_neg hv2] at h
    obtain ⟨hE, hd⟩ := checks_tail_inv hashv now m h
    exact ⟨h1, h2, h3, fun hx => absurd hx hv2, hE, hd⟩

theorem pop_message_checks_forward (hashv : HashFn) (env : ClaimEnv)
    (m : PopProofMessage) (p : Nat) (now : Int) (ehash : Bytes)
    (hg : m.grant = env.grantKey) (hc : m.claimer = env.claimerKey)
    (hp : m.period_index = p)
    (ha : m.version = POP_MESSAGE_VERSION_V2 → m.audit_hash ≠ zeros32)
    (hE : pop_entry_hash hashv m.version m.prev_hash m.stream_prev_hash m.audit_hash
            m.grant m.claimer m.period_index m.issued_at = .ok ehash) :
    pop_message_checks hashv env m p now =
      (if ehash = m.entry_hash then
        absolute_i64_diff now m.issued_at >>= fun skew =>
        require (skew ≤ POP_MAX_SKEW_SECONDS) ErrorCode.PopProofExpired
      else .error ErrorCode.PopEntryHashMismatch) := by
  simp only [pop_message_checks, require_bind, ite_bind, pure_eq_ok, ok_bind]
  rw [if_pos hg, if_pos hc, if_pos hp]
  by_cases hv2 : m.version = POP_MESSAGE_VERSION_V2
  · rw [if_pos hv2, if_pos (ha hv2), hE, ok_bind]
  · rw [if_neg hv2, hE, ok_bind]

theorem pop_state_advance_ok_inv (env : ClaimEnv) (st : PopState)
    (m : PopProofMessage) (s' : PopState)
    (h : pop_state_advance env st m = .ok s') :
    (st.initialized = true →
       st.grant = env.grantKey ∧ st.last_global_hash = m.prev_hash ∧
       st.last_stream_hash = m.stream_prev_hash) ∧
    (st.initialized = false →
       m.prev_hash = zeros32 ∧ m.stream_prev_hash = zeros32) ∧
    s'.last_global_hash = m.entry_hash ∧ s'.last_stream_hash = m.entry_hash ∧
    s'.last_period_index = m.period_index ∧ s'.last_issued_at = m.issued_at ∧
    s'.initialized = true := by
  simp only [pop_state_advance, require_bind, ite_bind, pure_eq_ok, ok_bind,
             error_bind] at h
  cases hI : st.initialized with
  | true =>
    rw [hI, if_pos rfl] at h
    by_cases h1 : st.grant = env.grantKey
    swap
    · rw [if_neg h1] at h; exact absurd h (by simp)
    rw [if_pos h1] at h
    by_cases h2 : st.last_global_hash = m.prev_hash
    swap
    · rw [if_neg h2] at h; exact absurd h (by simp)
    rw [if_pos h2] at h
    by_cases h3 : st.last_stream_hash = m.stream_prev_hash
    swap
    · rw [if_neg h3] at h; exact absurd h (by simp)
    rw [if_pos h3] at h
    have heq := Except.ok.inj h
    subst heq
    exact ⟨fun _ => ⟨h1, h2, h3⟩, fun hf => Bool.noConfusion hf, rfl, rfl, rfl, rfl, rfl⟩
  | false =>
    rw [hI, if_neg (by simp)] at h
    by_cases h1 : m.prev_hash = zeros32
    swap
    · rw [if_neg h1] at h; exact absurd h (by simp)
    rw [if_pos h1] at h
    by_cases h2 : m.stream_prev_hash = zeros32
    swap
    · rw [if_neg h2] at h; exact absurd h (by simp)
    rw [if_pos h2] at h
    have heq := Except.ok.inj h
    subst heq
    exact ⟨fun hf => Bool.noConfusion hf, fun _ => ⟨h1, h2⟩, rfl, rfl, rfl, rfl, rfl⟩

-- ===== Claim-state lemmas =====

theorem receipt_exists_iff (s : ChainState) (g c : Bytes) (p : Nat) :
    receipt_exists s g c p = true ↔ (g, c, p) ∈ receiptKeys s := by
  simp only [receipt_exists, receiptKeys, List.any_eq_true, decide_eq_true_eq,
             List.mem_map]

theorem claim_grant_step_ok_inv (hashv : HashFn) (env : ClaimEnv) (s : ChainState)
    (p : Nat) (now : Int) (s' : ChainState)
    (h : claim_grant_step hashv env s p now = .ok s') :
    receipt_exists s env.grantKey env.claimerKey p = false ∧
    ∃ pop' tokens',
      s' = { receipts := record_receipt env.grantKey env.claimerKey p now :: s.receipts
             pop_state := pop', tokens := tokens' } := by
  simp only [claim_grant_step, require_bind] at h
  by_cases h1 : receipt_exists s env.grantKey env.claimerKey p = false
  swap
  · rw [if_neg h1] at h; exact absurd h (by simp)
  rw [if_pos h1] at h
  refine ⟨h1, ?_⟩
  by_cases h2 : env.grant.paused = false
  swap
  · rw [if_neg h2] at h; exact absurd h (by simp)
  rw [if_pos h2] at h
  by_cases h3 : env.grant.merkle_root = zeros32
  swap
  · rw [if_neg h3] at h; exact absurd h (by simp)
  rw [if_pos h3] at h
  cases hv : verify_and_record_pop_proof hashv env s.pop_state p now with
  | error e => rw [hv] at h; simp [liftProgram, error_bind] at h
  | ok pop' =>
    rw [hv] at h
    simp only [liftProgram, ok_bind] at h
    cases ht : require_claim_timing env.grant now p with
    | error e => rw [ht] at h; simp [liftProgram, error_bind] at h
    | ok u =>
      cases u
      rw [ht] at h
      simp only [liftProgram, ok_bind] at h
      cases htr : transfer_from_vault s.tokens env.grant.amount_per_period with
      | error e => rw [htr] at h; simp [liftProgram, error_bind] at h
      | ok tokens' =>
        rw [htr] at h
        simp only [liftProgram, ok_bind, pure_eq_ok] at h
        exact ⟨pop', tokens', (Except.ok.inj h).symm⟩

theorem claim_grant_step_dup (hashv : HashFn) (env : ClaimEnv) (s : ChainState)
    (p : Nat) (now : Int)
    (hmem : (env.grantKey, env.claimerKey, p) ∈ receiptKeys s) :
    claim_grant_step hashv env s p now = .error ClaimErr.AlreadyClaimed := by
  have hex : receipt_exists s env.grantKey env.claimerKey p = true :=
    (receipt_exists_iff s env.grantKey env.claimerKey p).mpr hmem
  simp only [claim_grant_step, require_bind]
  rw [if_neg (by simp [hex])]

theorem merkle_step_eq_spec (hashv : HashFn) (a b : Bytes) :
    merkle_step hashv a b = sorted_pair_hash_spec hashv a b := by
  unfold merkle_step sorted_pair_hash_spec
  by_cases h : bytesLe a b = true
  · rw [if_pos h, if_pos h]
  · rw [if_neg h, if_neg h]

-- ===== Claim theorems =====

/-- C4 (counterexample): the decoder accepts the 177-byte version-1 message
`msgA` even though 177 differs from the 113 bytes the claim asserts, and it
rejects a 113-byte version-1 buffer with the typed length error. -/
theorem claim_C4_counterexample :
    parse_pop_message msgA = .ok msgAParsed ∧ msgA.length = 177 ∧
    ¬ msgA.length = 113 ∧
    parse_pop_message badLen113 = .error .InvalidPopMessageLength ∧
    badLen113.getD 0 0 = 1 ∧ badLen113.length = 113 := by
  refine ⟨by decide, by decide, by decide, by decide, by decide, by decide⟩

/-- C4 (amended): the proof-of-process message decoder accepts a byte string
iff it is non-empty, its first byte is version 1 or 2, and its total length
exactly equals the expected length for that version — 177 bytes for version 1
and 209 bytes for version 2; a known-version buffer of any other length is
rejected with the typed length error `InvalidPopMessageLength`, and no read
is out of bounds (the decoder is a total function). -/
theorem claim_C4_parse_length :
    (∀ bs : Bytes,
      (∃ m, parse_pop_message bs = .ok m) ↔
      (bs.isEmpty = false ∧
       ((bs.getD 0 0 = POP_MESSAGE_VERSION_V1 ∧ bs.length = POP_MESSAGE_LEN_V1) ∨
        (bs.getD 0 0 = POP_MESSAGE_VERSION_V2 ∧ bs.length = POP_MESSAGE_LEN_V2)))) ∧
    (∀ bs : Bytes, bs.isEmpty = false →
      (bs.getD 0 0 = POP_MESSAGE_VERSION_V1 ∨ bs.getD 0 0 = POP_MESSAGE_VERSION_V2) →
      bs.length ≠ (if bs.getD 0 0 = POP_MESSAGE_VERSION_V2 then POP_MESSAGE_LEN_V2
                   else POP_MESSAGE_LEN_V1) →
      parse_pop_message bs = .error .InvalidPopMessageLength) ∧
    POP_MESSAGE_LEN_V1 = 177 ∧ POP_MESSAGE_LEN_V2 = 209 := by
  refine ⟨?_, parse_err_len, by decide, by decide⟩
  intro bs
  constructor
  · rintro ⟨m, hm⟩
    exact parse_ok_shape bs m hm
  · rintro ⟨hne, hcase⟩
    rcases hcase with ⟨hv, hlen⟩ | ⟨hv, hlen⟩
    · exact ⟨parsedV1 bs, parse_ok_v1 bs hv hlen⟩
    · exact ⟨parsedV2 bs, parse_ok_v2 bs hv hlen⟩

/-- C4 (witness): the amended characterization evaluated on the accepted
177-byte vector and on a rejected 113-byte vector. -/
theorem claim_C4_witness :
    (∃ m, parse_pop_message msgA = .ok m) ∧
    parse_pop_message badLen113 = .error .InvalidPopMessageLength := by
  constructor
  · exact (claim_C4_parse_length.1 msgA).mpr (by decide)
  · exact claim_C4_parse_length.2.1 badLen113 (by decide) (by decide) (by decide)

/-- C10 (counterexample): the one-byte input `[3]` is malformed, yet the
decoder rejects it with `InvalidPopMessageVersion`, which is none of the
three error codes the claim enumerates. -/
theorem claim_C10_counterexample :
    parse_pop_message [3] = .error .InvalidPopMessageVersion ∧
    ErrorCode.InvalidPopMessageVersion ≠ ErrorCode.InvalidPopMessageLength ∧
    ErrorCode.InvalidPopMessageVersion ≠ ErrorCode.InvalidPopSignatureData ∧
    ErrorCode.InvalidPopMessageVersion ≠ ErrorCode.MathOverflow := by
  refine ⟨by decide, by decide, by decide, by decide⟩

/-- C10 (amended): both parsers are total — for every input byte string the
message decoder returns a decoded message or one of the typed errors
`InvalidPopMessageLength` / `InvalidPopMessageVersion`, and the ed25519
co-instruction data parser returns its extraction or one of the typed errors
`InvalidPopSignatureData` / `MathOverflow`; no input reaches an out-of-bounds
access or a panic. -/
theorem claim_C10_parser_totality :
    (∀ bs : Bytes,
      (∃ m, parse_pop_message bs = .ok m) ∨
      parse_pop_message bs = .error .InvalidPopMessageLength ∨
      parse_pop_message bs = .error .InvalidPopMessageVersion) ∧
    (∀ ix : Instruction,
      (∃ r, extract_ed25519_signer_and_message ix = .ok r) ∨
      extract_ed25519_signer_and_message ix = .error .InvalidPopSignatureData ∨
      extract_ed25519_signer_and_message ix = .error .MathOverflow) :=
  ⟨parse_classify, extract_classify⟩

/-- C8: the companion-instruction extractor fails with the
missing-companion error when the claim is the first instruction or the
preceding instruction cannot be loaded; rejects a preceding instruction that
does not target the native ed25519 program; and rejects companion data whose
component count is not 1, whose signature / public-key / message
instruction-index fields are not all the inline sentinel 0xFFFF, or whose
declared offset plus length exceeds the data buffer. -/
theorem claim_C8_companion_extractor :
    (∀ env : ClaimEnv, env.currentIndex = 0 →
       load_pop_companion env = .error .MissingPopSignatureInstruction) ∧
    (∀ env : ClaimEnv, env.instructions.get? (env.currentIndex - 1) = none →
       load_pop_companion env = .error .MissingPopSignatureInstruction) ∧
    (∀ (env : ClaimEnv) (ix : Instruction), 0 < env.currentIndex →
       env.instructions.get? (env.currentIndex - 1) = some ix →
       ix.program_id ≠ ed25519_program_id →
       load_pop_companion env = .error .InvalidPopSignatureProgram) ∧
    (∀ ix : Instruction, 16 ≤ ix.data.length → ix.data.getD 0 0 ≠ 1 →
       extract_ed25519_signer_and_message ix = .error .InvalidPopSignatureData) ∧
    (∀ ix : Instruction, 16 ≤ ix.data.length → ix.data.getD 0 0 = 1 →
       ¬(leDecode (sliceRange ix.data 4 2) = 65535 ∧
         leDecode (sliceRange ix.data 8 2) = 65535 ∧
         leDecode (sliceRange ix.data 14 2) = 65535) →
       extract_ed25519_signer_and_message ix = .error .InvalidPopSignatureData) ∧
    (∀ ix : Instruction, isBytes ix.data → 16 ≤ ix.data.length →
       ix.data.getD 0 0 = 1 →
       leDecode (sliceRange ix.data 4 2) = 65535 →
       leDecode (sliceRange ix.data 8 2) = 65535 →
       leDecode (sliceRange ix.data 14 2) = 65535 →
       (ix.data.length < leDecode (sliceRange ix.data 2 2) + 64 ∨
        ix.data.length < leDecode (sliceRange ix.data 6 2) + 32 ∨
        ix.data.length < leDecode (sliceRange ix.data 10 2) +
          leDecode (sliceRange ix.data 12 2)) →
       extract_ed25519_signer_and_message ix = .error .InvalidPopSignatureData) := by
  refine ⟨?_, ?_, ?_, ?_, ?_, ?_⟩
  · intro env h
    simp only [load_pop_companion, require_bind]
    rw [if_neg (by omega)]
  · intro env h
    by_cases hpos : 0 < env.currentIndex
    · simp only [load_pop_companion, require_bind]
      rw [if_pos hpos, h]
      rfl
    · simp only [load_pop_companion, require_bind]
      rw [if_neg hpos]
  · intro env ix hpos hget hprog
    simp only [load_pop_companion, require_bind]
    rw [if_pos hpos, hget]
    simp only [require_bind, pure_eq_ok]
    rw [if_neg hprog]
  · intro ix h16 h0
    simp only [extract_ed25519_signer_and_message, require_bind]
    rw [if_pos h16, if_neg h0]
  · intro ix h16 h0 hsent
    rw [extract_eq ix h16 h0]
    simp only []
    rw [if_neg hsent]
  · intro ix hbytes h16 h0 hs hp hm hbound
    rw [extract_eq ix h16 h0]
    simp only []
    rw [if_pos ⟨hs, hp, hm⟩]
    have hso := leDecode_slice2_lt ix.data 2 hbytes
    have hpo := leDecode_slice2_lt ix.data 6 hbytes
    have hmo := leDecode_slice2_lt ix.data 10 hbytes
    have hms := leDecode_slice2_lt ix.data 12 hbytes
    rw [usize_checked_add_eq (by unfold USIZE_LIMIT; omega), ok_or_some, ok_bind,
        usize_checked_add_eq (by unfold USIZE_LIMIT; omega), ok_or_some, ok_bind,
        usize_checked_add_eq (by unfold USIZE_LIMIT; omega), ok_or_some, ok_bind]
    rw [if_neg (by omega)]

/-- C8 (witness): each rejection evaluated on a concrete malformed input. -/
theorem claim_C8_witness :
    load_pop_companion envIdx0 = .error .MissingPopSignatureInstruction ∧
    load_pop_companion envNoPrev = .error .MissingPopSignatureInstruction ∧
    load_pop_companion envWrongProg = .error .InvalidPopSignatureProgram ∧
    extract_ed25519_signer_and_message ixBadCount = .error .InvalidPopSignatureData ∧
    extract_ed25519_signer_and_message ixBadSentinel = .error .InvalidPopSignatureData ∧
    extract_ed25519_signer_and_message ixBadBounds = .error .InvalidPopSignatureData := by
  refine ⟨claim_C8_companion_extractor.1 envIdx0 rfl,
          claim_C8_companion_extractor.2.1 envNoPrev rfl,
          claim_C8_companion_extractor.2.2.1 envWrongProg ixWrong (by decide) rfl (by decide),
          claim_C8_companion_extractor.2.2.2.1 ixBadCount (by decide) (by decide),
          claim_C8_companion_extractor.2.2.2.2.1 ixBadSentinel (by decide) (by decide) (by decide),
          claim_C8_companion_extractor.2.2.2.2.2 ixBadBounds (by decide) (by decide)
            (by decide) (by decide) (by decide) (by decide) (by decide)⟩

/-- C7: Merkle allowlist membership holds iff folding the proof with
sorted-pair hashing (lexicographically smaller operand first) from the
domain-separated leaf `H("we-ne:allowlist" || identity)` reaches the root;
and a leaf together with its sibling verifies against their sorted-pair
parent. -/
theorem claim_C7_merkle_membership :
    (∀ (hashv : HashFn) (root recipient : Bytes) (proof : List Bytes),
       verify_merkle_sorted hashv root (allowlist_leaf hashv recipient) proof = true ↔
       proof.foldl (sorted_pair_hash_spec hashv) (hashv [ALLOWLIST_TAG, recipient]) = root) ∧
    (∀ (hashv : HashFn) (recipient sibling : Bytes),
       verify_merkle_sorted hashv
         (merkle_step hashv (allowlist_leaf hashv recipient) sibling)
         (allowlist_leaf hashv recipient) [sibling] = true) := by
  constructor
  · intro hashv root recipient proof
    have hf : merkle_step hashv = sorted_pair_hash_spec hashv := by
      funext a b
      exact merkle_step_eq_spec hashv a b
    have hfold : proof.foldl (merkle_step hashv) (allowlist_leaf hashv recipient)
        = proof.foldl (sorted_pair_hash_spec hashv) (hashv [ALLOWLIST_TAG, recipient]) := by
      rw [hf, allowlist_leaf]
    simp [verify_merkle_sorted, hfold]
  · intro hashv recipient sibling
    simp [verify_merkle_sorted]

/-- C5: whenever the grant is unexpired (expires_at zero or now within it)
and started, the expected period index is the checked difference
`now - start_ts` divided by `period_seconds` with truncating division (cast
as u64), and `require_claim_timing` accepts the caller-supplied index iff it
equals exactly that value, rejecting any other index with
`InvalidPeriodIndex`. -/
theorem claim_C5_period_index (grant : Grant) (now : Int) (period_index : Nat)
    (hexp : grant.expires_at = 0 ∨ now ≤ grant.expires_at)
    (hstart : grant.start_ts ≤ now)
    (hrange : now - grant.start_ts ≤ i64Max) :
    (require_claim_timing grant now period_index = .ok () ↔
       period_index = intAsU64 (Int.tdiv (now - grant.start_ts) grant.period_seconds)) ∧
    (period_index ≠ intAsU64 (Int.tdiv (now - grant.start_ts) grant.period_seconds) →
       require_claim_timing grant now period_index = .error .InvalidPeriodIndex) := by
  have hmin0 : i64Min ≤ (0 : Int) := by norm_num [i64Min]
  have hmin : i64Min ≤ now - grant.start_ts := by omega
  have hcs : checked_sub_i64 now grant.start_ts = some (now - grant.start_ts) := by
    unfold checked_sub_i64
    rw [if_pos ⟨hmin, hrange⟩]
  simp only [require_claim_timing]
  by_cases hz : grant.expires_at ≠ 0
  · have hle : now ≤ grant.expires_at := by
      rcases hexp with h0 | hle
      · exact absurd h0 hz
      · exact hle
    rw [if_pos hz, require_pos hle, ok_bind, require_pos hstart, ok_bind, hcs,
        ok_or_some, ok_bind]
    exact ⟨require_ok_iff, fun hne => require_neg hne _⟩
  · rw [if_neg hz, pure_eq_ok, ok_bind, require_pos hstart, ok_bind, hcs,
        ok_or_some, ok_bind]
    exact ⟨require_ok_iff, fun hne => require_neg hne _⟩

/-- C5 (witness): with start 1000 and 30-day periods, at
`now = 1000 + 2592000*3 + 500` the index 3 is accepted and the indices 2 and
4 are rejected. -/
theorem claim_C5_witness :
    require_claim_timing grant0 7777500 3 = .ok () ∧
    require_claim_timing grant0 7777500 2 = .error .InvalidPeriodIndex ∧
    require_claim_timing grant0 7777500 4 = .error .InvalidPeriodIndex := by
  refine ⟨?_, ?_, ?_⟩
  · exact (claim_C5_period_index grant0 7777500 3 (Or.inl rfl) (by decide)
      (by decide)).1.mpr (by decide)
  · exact (claim_C5_period_index grant0 7777500 2 (Or.inl rfl) (by decide)
      (by decide)).2 (by decide)
  · exact (claim_C5_period_index grant0 7777500 4 (Or.inl rfl) (by decide)
      (by decide)).2 (by decide)

/-- C2: the verifier recomputes the entry hash over exactly the sequence
domain tag (per version), prev_global_hash, prev_stream_hash, audit hash
(version 2 only), grant, recipient, little-endian period index,
little-endian issued_at; a proof is accepted only if the recomputed value
equals the message's `entry_hash` field, and when the recomputed value
differs the claim is rejected with `PopEntryHashMismatch`. -/
theorem claim_C2_entry_hash_recompute :
    (∀ (hashv : HashFn) (prev stream audit grant claimer : Bytes) (p : Nat) (t : Int),
       pop_entry_hash hashv POP_MESSAGE_VERSION_V1 prev stream audit grant claimer p t =
         .ok (hashv (pop_entry_hash_input_spec POP_MESSAGE_VERSION_V1 prev stream audit
                     grant claimer p t)) ∧
       pop_entry_hash hashv POP_MESSAGE_VERSION_V2 prev stream audit grant claimer p t =
         .ok (hashv (pop_entry_hash_input_spec POP_MESSAGE_VERSION_V2 prev stream audit
                     grant claimer p t))) ∧
    (∀ (hashv : HashFn) (env : ClaimEnv) (st : PopState) (p : Nat) (now : Int)
       (msg : PopProofMessage) (s' : PopState),
       pop_message_of_env env = .ok msg →
       verify_and_record_pop_proof hashv env st p now = .ok s' →
       pop_entry_hash hashv msg.version msg.prev_hash msg.stream_prev_hash msg.audit_hash
         msg.grant msg.claimer msg.period_index msg.issued_at = .ok msg.entry_hash) ∧
    (∀ (hashv : HashFn) (env : ClaimEnv) (st : PopState) (p : Nat) (now : Int)
       (msg : PopProofMessage) (h : Bytes),
       pop_message_of_env env = .ok msg →
       msg.grant = env.grantKey → msg.claimer = env.claimerKey → msg.period_index = p →
       (msg.version = POP_MESSAGE_VERSION_V2 → msg.audit_hash ≠ zeros32) →
       pop_entry_hash hashv msg.version msg.prev_hash msg.stream_prev_hash msg.audit_hash
         msg.grant msg.claimer msg.period_index msg.issued_at = .ok h →
       h ≠ msg.entry_hash →
       verify_and_record_pop_proof hashv env st p now = .error .PopEntryHashMismatch) := by
  refine ⟨?_, ?_, ?_⟩
  · intro hashv prev stream audit grant claimer p t
    constructor
    · simp [pop_entry_hash, pop_entry_hash_input_spec, pop_domain_tag_spec,
            POP_MESSAGE_VERSION_V1, POP_MESSAGE_VERSION_V2]
    · simp [pop_entry_hash, pop_entry_hash_input_spec, pop_domain_tag_spec,
            POP_MESSAGE_VERSION_V1, POP_MESSAGE_VERSION_V2]
  · intro hashv env st p now msg s' hmsg hv
    obtain ⟨hchecks, _⟩ := verify_ok_inv hashv env st p now msg s' hmsg hv
    exact (pop_message_checks_ok_inv hashv env msg p now hchecks).2.2.2.2.1
  · intro hashv env st p now msg h hmsg hg hc hp ha hh hne
    rw [verify_of_msg hashv env st p now msg hmsg,
        pop_message_checks_forward hashv env msg p now h hg hc hp ha hh,
        if_neg hne, error_bind]

/-- C2 (witness): the accepted concrete claim has a matching recomputed entry
hash, and the same claim with an all-one `entry_hash` field is rejected with
the hash-mismatch error. -/
theorem claim_C2_witness :
    pop_entry_hash constHash msgAParsed.version msgAParsed.prev_hash
      msgAParsed.stream_prev_hash msgAParsed.audit_hash msgAParsed.grant
      msgAParsed.claimer msgAParsed.period_index msgAParsed.issued_at =
      .ok msgAParsed.entry_hash ∧
    verify_and_record_pop_proof constHash envBad popState0 0 1000 =
      .error .PopEntryHashMismatch := by
  constructor
  · exact claim_C2_entry_hash_recompute.2.1 constHash envA popState0 0 1000 msgAParsed
      popStateAfterA (by decide) (by decide)
  · exact claim_C2_entry_hash_recompute.2.2 constHash envBad popState0 0 1000
      msgBadParsed zeros32 (by decide) (by decide) (by decide) (by decide) (by decide)
      (by decide) (by decide)

/-- C3: the hash-chain transition accepts only messages whose previous
hashes match the recorded strands when the state is initialized and only
all-zero previous hashes when it is not; on acceptance both strands are set
to the message's entry hash (so they are equal afterwards) and the period
index and issuance time are recorded; on any rejection the recorded state is
unchanged. -/
theorem claim_C3_chain_transition :
    (∀ (hashv : HashFn) (env : ClaimEnv) (st : PopState) (p : Nat) (now : Int)
       (msg : PopProofMessage) (s' : PopState),
       pop_message_of_env env = .ok msg →
       verify_and_record_pop_proof hashv env st p now = .ok s' →
       (st.initialized = true →
          msg.prev_hash = st.last_global_hash ∧
          msg.stream_prev_hash = st.last_stream_hash) ∧
       (st.initialized = false →
          msg.prev_hash = zeros32 ∧ msg.stream_prev_hash = zeros32) ∧
       (s'.last_global_hash = msg.entry_hash ∧ s'.last_stream_hash = msg.entry_hash ∧
        s'.last_stream_hash = s'.last_global_hash) ∧
       (s'.last_period_index = msg.period_index ∧ s'.last_issued_at = msg.issued_at)) ∧
    (∀ (hashv : HashFn) (env : ClaimEnv) (st : PopState) (p : Nat) (now : Int)
       (e : ErrorCode),
       verify_and_record_pop_proof hashv env st p now = .error e →
       pop_state_after hashv env st p now = st) := by
  constructor
  · intro hashv env st p now msg s' hmsg hv
    obtain ⟨_, hadv⟩ := verify_ok_inv hashv env st p now msg s' hmsg hv
    obtain ⟨hinit, hgen, hG, hS, hP, hI, _⟩ := pop_state_advance_ok_inv env st msg s' hadv
    refine ⟨fun hT => ⟨((hinit hT).2.1).symm, ((hinit hT).2.2).symm⟩, hgen,
            ⟨hG, hS, by rw [hG, hS]⟩, hP, hI⟩
  · intro hashv env st p now e h
    simp [pop_state_after, h]

/-- C3 (witness): the concrete genesis claim and the chain advance it
records; a mismatched-previous-hash claim leaves the recorded state intact. -/
theorem claim_C3_witness :
    (msgAParsed.prev_hash = zeros32 ∧ msgAParsed.stream_prev_hash = zeros32) ∧
    popStateAfterA.last_global_hash = msgAParsed.entry_hash ∧
    popStateAfterA.last_issued_at = msgAParsed.issued_at ∧
    pop_state_after constHash envA stBad 0 1000 = stBad := by
  have h := claim_C3_chain_transition.1 constHash envA popState0 0 1000 msgAParsed
    popStateAfterA (by decide) (by decide)
  refine ⟨h.2.1 rfl, h.2.2.1.1, h.2.2.2.2, ?_⟩
  exact claim_C3_chain_transition.2 constHash envA stBad 0 1000 .PopHashChainBroken
    (by decide)

/-- C6: once every check before the timestamp-skew comparison passes, the
claim is accepted exactly when the absolute difference between `now` and the
proof's `issued_at` is at most `POP_MAX_SKEW_SECONDS = 600` (inclusive), and
otherwise rejected with `PopProofExpired`. -/
theorem claim_C6_skew_bound (hashv : HashFn) (env : ClaimEnv) (st : PopState)
    (p : Nat) (now : Int) (msg : PopProofMessage) (d : Int)
    (hmsg : pop_message_of_env env = .ok msg)
    (hg : msg.grant = env.grantKey) (hc : msg.claimer = env.claimerKey)
    (hp : msg.period_index = p)
    (ha : msg.version = POP_MESSAGE_VERSION_V2 → msg.audit_hash ≠ zeros32)
    (hh : pop_entry_hash hashv msg.version msg.prev_hash msg.stream_prev_hash
            msg.audit_hash msg.grant msg.claimer msg.period_index msg.issued_at =
            .ok msg.entry_hash)
    (hd : absolute_i64_diff now msg.issued_at = .ok d) :
    verify_and_record_pop_proof hashv env st p now =
      (if d ≤ POP_MAX_SKEW_SECONDS then pop_state_advance env st msg
       else .error .PopProofExpired) := by
  rw [verify_of_msg hashv env st p now msg hmsg,
      pop_message_checks_forward hashv env msg p now msg.entry_hash hg hc hp ha hh,
      if_pos rfl, hd, ok_bind]
  by_cases hle : d ≤ POP_MAX_SKEW_SECONDS
  · rw [require_pos hle, if_pos hle, ok_bind]
  · rw [require_neg hle, if_neg hle, error_bind]

/-- C6 (witness): the same concrete proof issued at time 1000 passes at
`now = 1600` (skew exactly 600) and is rejected as expired at `now = 1601`
(skew 601). -/
theorem claim_C6_witness :
    verify_and_record_pop_proof constHash envA popState0 0 1600 = .ok popStateAfterA ∧
    verify_and_record_pop_proof constHash envA popState0 0 1601 =
      .error .PopProofExpired := by
  constructor
  · have h := claim_C6_skew_bound constHash envA popState0 0 1600 msgAParsed 600
      (by decide) (by decide) (by decide) (by decide) (by decide) (by decide) (by decide)
    rw [h, if_pos (by decide)]
    decide
  · have h := claim_C6_skew_bound constHash envA popState0 0 1601 msgAParsed 601
      (by decide) (by decide) (by decide) (by decide) (by decide) (by decide) (by decide)
    rw [h, if_neg (by decide)]

/-- C9: the chain verifier imposes no ordering on period indices: a concrete
initialized state with recorded last period 5 accepts an otherwise valid
message for period 3 (its previous hashes matching the recorded strands) and
overwrites the recorded last period index with the smaller value 3. -/
theorem claim_C9_no_period_ordering :
    verify_and_record_pop_proof constHash envC9 stC9 3 1000 = .ok stC9after ∧
    stC9after.last_period_index = 3 ∧ stC9.last_period_index = 5 ∧
    stC9after.last_period_index ≤ stC9.last_period_index ∧
    stC9.initialized = true := by
  refine ⟨by decide, by decide, by decide, by decide, by decide⟩

/-- C1: an accepted claim creates the receipt for its
`(grant, claimer, period)` triple; acceptance requires that no receipt for
the triple existed, so distinct receipt keys stay distinct (at most one
receipt per triple ever); and any second claim for the same triple fails
with the uniqueness-on-create `AlreadyClaimed` error, leaving the recorded
chain state and token balances unchanged. -/
theorem claim_C1_receipt_unique (hashv : HashFn) (env : ClaimEnv) (s : ChainState)
    (p : Nat) (now : Int) (s' : ChainState)
    (hstep : claim_grant_step hashv env s p now = .ok s') :
    (env.grantKey, env.claimerKey, p) ∈ receiptKeys s' ∧
    (env.grantKey, env.claimerKey, p) ∉ receiptKeys s ∧
    ((receiptKeys s).Nodup → (receiptKeys s').Nodup) ∧
    (∀ (hashv2 : HashFn) (env2 : ClaimEnv) (now2 : Int),
       env2.grantKey = env.grantKey → env2.claimerKey = env.claimerKey →
       claim_grant_step hashv2 env2 s' p now2 = .error ClaimErr.AlreadyClaimed ∧
       claim_grant_run hashv2 env2 s' p now2 = s') := by
  obtain ⟨hex, pop', tokens', hs'⟩ := claim_grant_step_ok_inv hashv env s p now s' hstep
  have hnotmem : (env.grantKey, env.claimerKey, p) ∉ receiptKeys s := by
    intro hmem
    have hx := (receipt_exists_iff s env.grantKey env.claimerKey p).mpr hmem
    rw [hex] at hx
    exact Bool.noConfusion hx
  have hkeys : receiptKeys s' = (env.grantKey, env.claimerKey, p) :: receiptKeys s := by
    rw [hs']
    simp [receiptKeys, receiptKey, record_receipt]
  refine ⟨?_, hnotmem, ?_, ?_⟩
  · rw [hkeys]
    exact List.mem_cons_self _ _
  · intro hnd
    rw [hkeys]
    exact List.nodup_cons.mpr ⟨hnotmem, hnd⟩
  · intro hashv2 env2 now2 hg2 hc2
    have hmem2 : (env2.grantKey, env2.claimerKey, p) ∈ receiptKeys s' := by
      rw [hg2, hc2, hkeys]
      exact List.mem_cons_self _ _
    have herr := claim_grant_step_dup hashv2 env2 s' p now2 hmem2
    exact ⟨herr, by simp [claim_grant_run, herr]⟩

/-- C1 (witness): the concrete period-0 claim is accepted once, its receipt
is recorded, and replaying the same claim fails with `AlreadyClaimed` while
the ledger (chain state and balances) is unchanged. -/
theorem claim_C1_witness :
    claim_grant_step constHash envA chainState0 0 1000 = .ok chainState1 ∧
    claim_grant_step constHash envA chainState1 0 1000 =
      .error ClaimErr.AlreadyClaimed ∧
    claim_grant_run constHash envA chainState1 0 1000 = chainState1 ∧
    (gk, ck, 0) ∈ receiptKeys chainState1 := by
  have hstep : claim_grant_step constHash envA chainState0 0 1000 = .ok chainState1 := by
    decide
  have h := claim_C1_receipt_unique constHash envA chainState0 0 1000 chainState1 hstep
  have h2 := h.2.2.2 constHash envA 1000 rfl rfl
  exact ⟨hstep, h2.1, h2.2, h.1⟩

end GrantProgram
